import Mathlib

/-!
Verification of the real-time transport and stream-reconstruction layer of the
legal-assistant browser client (repository `legel-agentic-system`).

The definitions below are a shallow embedding of:
  * the streamed-reply accumulator of `src/frontend/js/chat.js`
    (`sendStreamingMessage`, `addAssistantMessage`, `updateStreamingMessage`,
    `finalizeStreamingMessage`);
  * the workflow WebSocket hook (`useWebSocket`) and the notification
    WebSocket (`initializeWebSocket` / `handleWebSocketMessage`);
  * the fallback simulator of `src/frontend/app/page.tsx` together with the
    fixture data of `src/frontend/lib/mockData.ts`.

JSON parsing is performed by the platform (`JSON.parse`); it is modelled as an
explicit `String → Except String _` argument, a thrown exception becoming
`Except.error`.  JavaScript `try`/`catch` around a parse is modelled by
matching on that `Except` and continuing on the `.error` branch.
-/

/-! ## JavaScript string primitives

The handlers use `String.prototype.split`, `startsWith`, `slice`,
`toLowerCase` and `includes`.  They are modelled by structurally recursive
functions on the character list of a `String` (all payloads involved are
ASCII, where JavaScript UTF-16 code units and Lean characters agree). -/

/-- `split('\n')` on a character list. -/
def splitNlChars : List Char → List (List Char)
  | [] => [[]]
  | c :: rest =>
    let r := splitNlChars rest
    if c = '\n' then [] :: r
    else
      match r with
      | h :: t => (c :: h) :: t
      | [] => [[c]]

/-- `s.split('\n')`. -/
def jsSplitNewline (s : String) : List String :=
  (splitNlChars s.data).map String.mk

/-- `s.startsWith(t)`. -/
def jsStartsWith (s t : String) : Bool :=
  t.data.isPrefixOf s.data

/-- `s.slice(n)` for a non-negative `n`. -/
def jsSlice (s : String) (n : Nat) : String :=
  String.mk (s.data.drop n)

/-- `s.toLowerCase()` (ASCII). -/
def jsToLowerCase (s : String) : String :=
  String.mk (s.data.map Char.toLower)

/-- Substring search on character lists, as in `String.prototype.includes`. -/
def containsChars (l needle : List Char) : Bool :=
  needle.isPrefixOf l ||
    match l with
    | [] => false
    | _ :: rest => containsChars rest needle

/-- `s.includes(t)`. -/
def jsIncludes (s t : String) : Bool :=
  containsChars s.data t.data

example : jsSplitNewline "a\nb" = ["a", "b"] := by decide
example : jsSplitNewline "a\n" = ["a", ""] := by decide
example : jsIncludes "input about texting while walking now" "texting while walking" = true := by
  decide
example : jsToLowerCase "Texting While WALKING" = "texting while walking" := by decide

/-! ## Stream accumulator (src/frontend/js/chat.js, `sendStreamingMessage`) -/

/-- The parsed payload of one `data: ` line.  `JSON.parse` yields an object of
which the handler reads the fields `type`, `content` and `analysis`
(chat.js lines 247-261); only those fields are modelled. -/
structure StreamData where
  type : String
  content : String
  analysis : String
deriving DecidableEq

/-- One chat message as stored in `ChatState.messages` together with the facts
about its DOM node that the streaming code manipulates (the `streaming` CSS
class and the trailing `typing-cursor` span). -/
structure ChatMessage where
  id : Nat
  stateContent : String
  isStreaming : Bool
  domContent : String
  hasCursor : Bool
  streamingClass : Bool
deriving DecidableEq

/-- Observable side effects of the stream loop: creation of the assistant
message bubble, a DOM update with the running accumulated text, forwarding of
an analysis payload to the analysis panel, and finalization of a message. -/
inductive StreamEmit where
  | created (id : Nat)
  | updated (id : Nat) (content : String)
  | analysisPanel (payload : String)
  | finalized (id : Nat)
deriving DecidableEq

/-- State of one streaming response: the local variables `assistantMessageId`
and `accumulatedContent` of `sendStreamingMessage`, plus the message store.
`nextId` models the generation of fresh DOM ids. -/
structure StreamState where
  assistantMessageId : Option Nat
  accumulatedContent : String
  messages : List ChatMessage
  nextId : Nat
deriving DecidableEq

/-- Initial state of `sendStreamingMessage`: no assistant message yet,
`accumulatedContent = ''`. -/
def initStream : StreamState := ⟨none, "", [], 0⟩

/-- `addAssistantMessage('', true)` (chat.js line 323): creates a new message
with empty content, the `streaming` class and `isStreaming = true`, and
returns its id. -/
def addAssistantMessage (st : StreamState) : StreamState × Nat :=
  let id := st.nextId
  ({ st with
      messages := st.messages ++ [⟨id, "", true, "", false, true⟩],
      nextId := id + 1 }, id)

/-- `updateStreamingMessage(messageId, content)` (chat.js line 501): rewrites
the bubble of the message with that id to the accumulated content followed by
the typing cursor; a missing element makes it a no-op. -/
def updateStreamingMessage (st : StreamState) (id : Nat) (content : String) :
    StreamState :=
  { st with
      messages := st.messages.map fun m =>
        if m.id = id then { m with domContent := content, hasCursor := true }
        else m }

/-- `finalizeStreamingMessage(messageId)` (chat.js line 526): looks the element
up by id — `document.getElementById(null)` finds nothing, so a `null` id is a
no-op — then removes the `streaming` class and the cursor and sets the stored
message's `isStreaming` to `false`. -/
def finalizeStreamingMessage (st : StreamState) (mid : Option Nat) :
    StreamState × List StreamEmit :=
  match mid with
  | none => (st, [])
  | some id =>
    if st.messages.any fun m => m.id = id then
      ({ st with
          messages := st.messages.map fun m =>
            if m.id = id then
              { m with streamingClass := false, hasCursor := false,
                       isStreaming := false }
            else m }, [StreamEmit.finalized id])
    else (st, [])

/-- The body of the `data.type` dispatch (chat.js lines 249-263): `content`
appends the delta to `accumulatedContent`, creates the assistant message on
the first chunk and pushes a DOM update; `analysis` is forwarded to the
analysis panel; `complete` finalizes; any other type falls through. -/
def processData (st : StreamState) (d : StreamData) :
    StreamState × List StreamEmit :=
  if d.type == "content" then
    let acc := st.accumulatedContent ++ d.content
    let st1 := { st with accumulatedContent := acc }
    let created :=
      match st1.assistantMessageId with
      | none =>
        let (st2, id) := addAssistantMessage st1
        ({ st2 with assistantMessageId := some id }, [StreamEmit.created id])
      | some _ => (st1, ([] : List StreamEmit))
    match created.1.assistantMessageId with
    | some id =>
      (updateStreamingMessage created.1 id acc,
       created.2 ++ [StreamEmit.updated id acc])
    | none => created
  else if d.type == "analysis" then
    (st, [StreamEmit.analysisPanel d.analysis])
  else if d.type == "complete" then
    finalizeStreamingMessage st st.assistantMessageId
  else
    (st, [])

/-- One line of the stream (chat.js lines 245-265): only lines starting with
the `data: ` marker are considered; the rest of such a line goes through
`JSON.parse` inside a `try`/`catch` whose `catch` only logs, so a parse
failure leaves the state unchanged. -/
def processLine (parse : String → Except String StreamData)
    (st : StreamState) (line : String) : StreamState × List StreamEmit :=
  if jsStartsWith line "data: " then
    match parse (jsSlice line 6) with
    | Except.ok d => processData st d
    | Except.error _ => (st, [])
  else (st, [])

/-- The `for (const line of lines)` loop over the lines of one read. -/
def processLines (parse : String → Except String StreamData) :
    StreamState → List String → StreamState × List StreamEmit
  | st, [] => (st, [])
  | st, l :: ls =>
    let p := processLine parse st l
    let q := processLines parse p.1 ls
    (q.1, p.2 ++ q.2)

/-- One iteration of the read loop (chat.js lines 239-244): the decoded chunk
is split on newline and every piece is handled as a line.  No trailing
partial segment is carried over to the next read. -/
def processRead (parse : String → Except String StreamData)
    (st : StreamState) (readStr : String) : StreamState × List StreamEmit :=
  processLines parse st (jsSplitNewline readStr)

/-- The whole read loop: each read of the response body is processed
independently. -/
def consumeReads (parse : String → Except String StreamData) :
    StreamState → List String → StreamState × List StreamEmit
  | st, [] => (st, [])
  | st, r :: rs =>
    let p := processRead parse st r
    let q := consumeReads parse p.1 rs
    (q.1, p.2 ++ q.2)

/-- Chunk-level consumption: the dispatch applied to a list of already-parsed
stream payloads in arrival order. -/
def consumeData : StreamState → List StreamData → StreamState × List StreamEmit
  | st, [] => (st, [])
  | st, d :: ds =>
    let p := processData st d
    let q := consumeData p.1 ds
    (q.1, p.2 ++ q.2)

/-- A `content` chunk carrying the delta `c`. -/
def mkContent (c : String) : StreamData := ⟨"content", c, ""⟩

/-- A `complete` chunk. -/
def mkComplete : StreamData := ⟨"complete", "", ""⟩

/-- Concatenation of a list of deltas in order (`c1 ++ c2 ++ … ++ cn`). -/
def concatAll : List String → String
  | [] => ""
  | c :: cs => c ++ concatAll cs

/-- The running prefixes `a ++ c1, a ++ c1 ++ c2, …` of a delta sequence. -/
def runningAcc (a : String) : List String → List String
  | [] => []
  | c :: cs => (a ++ c) :: runningAcc (a ++ c) cs

example : concatAll ["a", "b", "c"] = "abc" := by decide
example : runningAcc "" ["a", "b"] = ["a", "ab"] := by decide

/-- `true` exactly on `finalized` emissions. -/
def isFinalizedEmit : StreamEmit → Bool
  | StreamEmit.finalized _ => true
  | _ => false

/-! ### Helper lemmas about the stream accumulator -/

theorem consumeData_append (l1 l2 : List StreamData) :
    ∀ st : StreamState,
      consumeData st (l1 ++ l2)
        = ((consumeData (consumeData st l1).1 l2).1,
           (consumeData st l1).2 ++ (consumeData (consumeData st l1).1 l2).2) := by
  induction l1 with
  | nil => intro st; simp [consumeData]
  | cons d l1 ih =>
    intro st
    simp only [List.cons_append, consumeData, List.append_eq, ih, List.append_assoc]

theorem consumeData_content_run (cs : List String) :
    ∀ (st : StreamState) (i : Nat), st.assistantMessageId = some i →
      (consumeData st (cs.map mkContent)).1.accumulatedContent
          = st.accumulatedContent ++ concatAll cs
      ∧ (consumeData st (cs.map mkContent)).2
          = (runningAcc st.accumulatedContent cs).map (StreamEmit.updated i)
      ∧ (consumeData st (cs.map mkContent)).1.assistantMessageId = some i := by
  induction cs with
  | nil =>
    intro st i h
    simp [consumeData, concatAll, runningAcc, String.append_empty, h]
  | cons c cs ih =>
    intro st i h
    have hstep : processData st (mkContent c)
        = (updateStreamingMessage
            { st with accumulatedContent := st.accumulatedContent ++ c } i
            (st.accumulatedContent ++ c),
           [StreamEmit.updated i (st.accumulatedContent ++ c)]) := by
      simp [processData, mkContent, h]
    have h' : (updateStreamingMessage
          { st with accumulatedContent := st.accumulatedContent ++ c } i
          (st.accumulatedContent ++ c)).assistantMessageId = some i := by
      simp [updateStreamingMessage, h]
    obtain ⟨ih1, ih2, ih3⟩ := ih _ i h'
    refine ⟨?_, ?_, ?_⟩
    · simp only [List.map_cons, consumeData, hstep]
      rw [ih1]
      simp only [updateStreamingMessage]
      simp [concatAll, String.append_assoc]
    · simp only [List.map_cons, consumeData, hstep]
      rw [ih2]
      simp only [updateStreamingMessage]
      simp [runningAcc]
    · simp only [List.map_cons, consumeData, hstep, ih3]

theorem consumeData_content_messages (cs : List String) :
    ∀ (st : StreamState) (i : Nat) (m : ChatMessage),
      st.assistantMessageId = some i → st.messages = [m] → m.id = i →
      ∃ d hc, (consumeData st (cs.map mkContent)).1.messages
          = [{ m with domContent := d, hasCursor := hc }] := by
  induction cs with
  | nil =>
    intro st i m _ hm _
    exact ⟨m.domContent, m.hasCursor, by simpa [consumeData] using hm⟩
  | cons c cs ih =>
    intro st i m h hm hid
    have hstep : processData st (mkContent c)
        = (updateStreamingMessage
            { st with accumulatedContent := st.accumulatedContent ++ c } i
            (st.accumulatedContent ++ c),
           [StreamEmit.updated i (st.accumulatedContent ++ c)]) := by
      simp [processData, mkContent, h]
    have h' : (updateStreamingMessage
          { st with accumulatedContent := st.accumulatedContent ++ c } i
          (st.accumulatedContent ++ c)).assistantMessageId = some i := by
      simp [updateStreamingMessage, h]
    have hm' : (updateStreamingMessage
          { st with accumulatedContent := st.accumulatedContent ++ c } i
          (st.accumulatedContent ++ c)).messages
        = [{ m with domContent := st.accumulatedContent ++ c, hasCursor := true }] := by
      simp [updateStreamingMessage, hm, hid]
    obtain ⟨d, hc, hmsg⟩ := ih _ i _ h' hm' hid
    refine ⟨d, hc, ?_⟩
    simpa [consumeData, hstep] using hmsg

theorem filter_finalized_updated (l : List String) (i : Nat) :
    (l.map (StreamEmit.updated i)).filter isFinalizedEmit = [] := by
  induction l with
  | nil => rfl
  | cons c cs ih => simp [isFinalizedEmit, ih]

/-- The first `content` chunk from the initial state: the delta is
accumulated, message `0` is created and one DOM update is pushed. -/
theorem processData_first_content (c : String) :
    processData initStream (mkContent c)
      = (⟨some 0, c, [⟨0, "", true, c, true, true⟩], 1⟩,
         [StreamEmit.created 0, StreamEmit.updated 0 c]) := by
  simp [processData, mkContent, initStream, addAssistantMessage,
    updateStreamingMessage, String.empty_append]

/-- C1: for every sequence of `content` chunks `[c1, …, cn]` delivered in
order, the accumulated text equals `c1 ++ … ++ cn`, and the emission trace is
the creation of the assistant message followed by one incremental DOM update
per chunk, carrying the running concatenation (chat.js lines 249-258). -/
theorem stream_accumulates_in_order (c : String) (cs : List String) :
    (consumeData initStream ((c :: cs).map mkContent)).1.accumulatedContent
        = concatAll (c :: cs)
    ∧ (consumeData initStream ((c :: cs).map mkContent)).2
        = StreamEmit.created 0
            :: (runningAcc "" (c :: cs)).map (StreamEmit.updated 0) := by
  obtain ⟨h1, h2, _⟩ :=
    consumeData_content_run cs ⟨some 0, c, [⟨0, "", true, c, true, true⟩], 1⟩ 0 rfl
  constructor
  · simp only [List.map_cons, consumeData, processData_first_content]
    rw [h1]
    simp [concatAll]
  · simp only [List.map_cons, consumeData, processData_first_content]
    rw [h2]
    simp [runningAcc, String.empty_append]

/-- C9: a malformed line — one without the `data: ` marker, or one whose
payload after the marker fails `JSON.parse` — leaves the accumulator state
unchanged, produces no emission (the `catch` only logs), and processing of the
remaining lines continues as if the line had not been there
(chat.js lines 245-266). -/
theorem stream_malformed_line_skipped
    (parse : String → Except String StreamData) (st : StreamState)
    (line : String) (rest : List String)
    (h : jsStartsWith line "data: " = false
         ∨ ∃ e, parse (jsSlice line 6) = Except.error e) :
    processLine parse st line = (st, [])
    ∧ processLines parse st (line :: rest) = processLines parse st rest := by
  have h1 : processLine parse st line = (st, []) := by
    rcases h with h | ⟨e, he⟩
    · simp [processLine, h]
    · by_cases hs : jsStartsWith line "data: " <;> simp [processLine, hs, he]
  exact ⟨h1, by simp [processLines, h1]⟩

/-- Model of the platform `JSON.parse` at the payloads exercised below:
it accepts the well-formed chunk object and raises a syntax error on anything
else (in particular on the truncated fragment of that object and on plain
text, on which the real `JSON.parse` throws as well). -/
def parseDemo (s : String) : Except String StreamData :=
  if s = "\x7b\"type\":\"content\",\"content\":\"hi\"\x7d" then
    Except.ok ⟨"content", "hi", ""⟩
  else
    Except.error "SyntaxError"

/-- Witness for C9 at a concrete malformed line followed by a valid line. -/
theorem stream_malformed_line_skipped_witness :
    processLine parseDemo initStream "hello" = (initStream, [])
    ∧ processLines parseDemo initStream
        ("hello" :: ["data: \x7b\"type\":\"content\",\"content\":\"hi\"\x7d"])
      = processLines parseDemo initStream
          ["data: \x7b\"type\":\"content\",\"content\":\"hi\"\x7d"] :=
  stream_malformed_line_skipped parseDemo initStream "hello"
    ["data: \x7b\"type\":\"content\",\"content\":\"hi\"\x7d"]
    (Or.inl (by decide))

/-- Stream reconstruction as §4.3 of the spec words it: each read is appended
to a carry buffer, the buffer is split on newline, all complete lines are
parsed and the trailing partial segment is retained for the next read.  This
definition follows the spec's words; it is the comparison point for what
`sendStreamingMessage` actually does (`consumeReads`). -/
def consumeReadsSpecBuffered (parse : String → Except String StreamData) :
    StreamState → String → List String → StreamState × List StreamEmit
  | st, _, [] => (st, [])
  | st, buf, r :: rs =>
    let parts := jsSplitNewline (buf ++ r)
    let p := processLines parse st parts.dropLast
    let q := consumeReadsSpecBuffered parse p.1 (parts.getLastD "") rs
    (q.1, p.2 ++ q.2)

/-- C2: evaluation of the code at a read boundary that falls inside a
`data: ` line.  The loop of `sendStreamingMessage` splits each read on
newline independently and carries nothing over (chat.js lines 239-248), so
the marked half fails to parse and the unmarked half is ignored: the chunk's
delta `"hi"` is lost, while the buffered reconstruction required by the spec
recovers it. -/
theorem stream_split_line_lost :
    (consumeReads parseDemo initStream
        ["data: \x7b\"type\":\"content\",\"con", "tent\":\"hi\"\x7d\n"]
      ).1.accumulatedContent = ""
    ∧ (consumeReadsSpecBuffered parseDemo initStream ""
        ["data: \x7b\"type\":\"content\",\"con", "tent\":\"hi\"\x7d\n"]
      ).1.accumulatedContent = "hi" := by
  constructor <;> decide

theorem processData_complete (st : StreamState) :
    processData st mkComplete
      = finalizeStreamingMessage st st.assistantMessageId := by
  simp [processData, mkComplete]

/-- C8 counterexample: a `complete` chunk with no preceding `content` chunk.
`assistantMessageId` is still `null`, so `finalizeStreamingMessage(null)`
finds no element and returns: no message is marked complete, no cursor is
stripped and no terminal notification is emitted (chat.js lines 252-262,
526-529). -/
theorem stream_complete_without_content_noop :
    consumeData initStream [mkComplete] = (initStream, []) := by decide

/-- C8 (amended): a `complete` chunk preceded by at least one `content` chunk
finalizes the session exactly once — the assistant message ends with
`isStreaming = false`, its cursor and `streaming` class stripped, and the
emission trace contains exactly one finalization. -/
theorem stream_complete_finalizes (c : String) (cs : List String) :
    ((consumeData initStream (((c :: cs).map mkContent) ++ [mkComplete])
      ).1.messages.map fun m => (m.isStreaming, m.hasCursor, m.streamingClass))
        = [(false, false, false)]
    ∧ (consumeData initStream (((c :: cs).map mkContent) ++ [mkComplete])
      ).2.filter isFinalizedEmit = [StreamEmit.finalized 0] := by
  obtain ⟨_, h2, h3⟩ :=
    consumeData_content_run cs ⟨some 0, c, [⟨0, "", true, c, true, true⟩], 1⟩ 0 rfl
  obtain ⟨d, hc, hmsg⟩ :=
    consumeData_content_messages cs
      ⟨some 0, c, [⟨0, "", true, c, true, true⟩], 1⟩ 0
      ⟨0, "", true, c, true, true⟩ rfl rfl rfl
  have hA : consumeData initStream ((c :: cs).map mkContent)
      = ((consumeData ⟨some 0, c, [⟨0, "", true, c, true, true⟩], 1⟩
            (cs.map mkContent)).1,
         StreamEmit.created 0 :: StreamEmit.updated 0 c
           :: (consumeData ⟨some 0, c, [⟨0, "", true, c, true, true⟩], 1⟩
                (cs.map mkContent)).2) := by
    simp [consumeData, processData_first_content]
  have hfin :
      consumeData
        (consumeData ⟨some 0, c, [⟨0, "", true, c, true, true⟩], 1⟩
          (cs.map mkContent)).1 [mkComplete]
      = ({ (consumeData ⟨some 0, c, [⟨0, "", true, c, true, true⟩], 1⟩
            (cs.map mkContent)).1 with
            messages := [⟨0, "", false, d, false, false⟩] },
         [StreamEmit.finalized 0]) := by
    simp only [consumeData, processData_complete, h3, finalizeStreamingMessage,
      hmsg]
    simp
  rw [consumeData_append, hA]
  dsimp only
  rw [hfin]
  constructor
  · simp
  · rw [h2]
    simp [List.filter_append, isFinalizedEmit, filter_finalized_updated]

/-! ## WebSocket channels

Channel A (workflow/debate) is the `useWebSocket` hook of
`src/unnamed/part_000`; channel B (general notifications) is
`initializeWebSocket` / `handleWebSocketMessage` of `src/unnamed/part_001`.
A parsed inbound message is an object of which the handlers only inspect the
`type` discriminant; the remainder of the payload is carried opaquely. -/

/-- A parsed inbound socket message: the `type` discriminant plus the rest of
the payload, carried opaquely. -/
structure WsData where
  type : String
  body : String
deriving DecidableEq

/-- State buckets of the `useWebSocket` hook (part_000 lines 37-41):
the ordered raw message log and the four typed projections. -/
structure WsState where
  messages : List WsData
  workflowStatus : Option WsData
  wsArguments : List WsData
  debateTurns : List WsData
  feedback : Option WsData
deriving DecidableEq

/-- Initial hook state: empty log, empty projections. -/
def initWsState : WsState := ⟨[], none, [], [], none⟩

/-- The body of `ws.onmessage` after a successful parse (part_000 lines
60-75): the message is appended to `messages`, then the `switch (data.type)`
updates the matching bucket; a `type` matching no case falls through and
changes nothing else. -/
def routeWorkflowMessage (st : WsState) (d : WsData) : WsState :=
  let st1 := { st with messages := st.messages ++ [d] }
  if d.type == "workflow_update" then
    { st1 with workflowStatus := some d }
  else if d.type == "argument_generated" then
    { st1 with wsArguments := st1.wsArguments ++ [d] }
  else if d.type == "debate_turn" then
    { st1 with debateTurns := st1.debateTurns ++ [d] }
  else if d.type == "feedback_ready" then
    { st1 with feedback := some d }
  else
    st1

/-- `ws.onmessage` on channel A (part_000 lines 57-79): `JSON.parse` runs
inside `try`/`catch`; on failure the `catch` logs the error and the handler
returns with the state untouched — the error never leaves the handler. -/
def dispatchWorkflow (parse : String → Except String WsData)
    (st : WsState) (raw : String) : Except String WsState :=
  match parse raw with
  | Except.ok d => Except.ok (routeWorkflowMessage st d)
  | Except.error _ => Except.ok st

/-- Side effects of `handleWebSocketMessage` on channel B (part_001 lines
542-554). -/
inductive NotifEffect where
  | analysisPanel (body : String)
  | caseList (body : String)
  | toast (body : String)
deriving DecidableEq

/-- `handleWebSocketMessage(data)` (part_001 lines 542-554): a `switch` on
`data.type` with cases `analysis_update`, `case_update`, `notification`;
anything else falls through with no effect. -/
def handleWebSocketMessage (d : WsData) : List NotifEffect :=
  if d.type == "analysis_update" then [NotifEffect.analysisPanel d.body]
  else if d.type == "case_update" then [NotifEffect.caseList d.body]
  else if d.type == "notification" then [NotifEffect.toast d.body]
  else []

/-- `websocket.onmessage` on channel B (part_001 lines 521-524):
`const data = JSON.parse(event.data); handleWebSocketMessage(data);` with no
`try`/`catch` inside the handler — the `try` in `initializeWebSocket` wraps
only the synchronous socket construction, not this later-invoked callback —
so a parse failure propagates out of the message handler. -/
def dispatchNotification (parse : String → Except String WsData)
    (raw : String) : Except String (List NotifEffect) :=
  (parse raw).map handleWebSocketMessage

/-- Model of the platform `JSON.parse` for channel payloads at the inputs
exercised below: it accepts the well-formed notification object and raises a
syntax error on anything else (the real `JSON.parse` throws on `not json`). -/
def parseDemoWs (s : String) : Except String WsData :=
  if s = "\x7b\"type\":\"notification\"\x7d" then
    Except.ok ⟨"notification", ""⟩
  else
    Except.error "SyntaxError"

/-- C3: evaluation of both message handlers on a malformed payload.  On the
workflow channel the parse failure is caught and discarded (state unchanged,
no propagation), but on the notification channel `JSON.parse` runs outside
any `try`/`catch` in the handler, so the same malformed payload propagates a
`SyntaxError` out of the message handler — the claim fails for channel B. -/
theorem ws_parse_failure_two_channels :
    dispatchWorkflow parseDemoWs initWsState "not json"
        = Except.ok initWsState
    ∧ dispatchNotification parseDemoWs "not json"
        = Except.error "SyntaxError" := by
  exact ⟨rfl, rfl⟩

/-- C4: dispatch of a successfully parsed workflow-channel message appends it
to the ordered message log and updates exactly the matching bucket:
`workflow_update` replaces `workflowStatus` wholesale, `argument_generated`
and `debate_turn` are appended to their ordered sequences, `feedback_ready`
replaces the feedback snapshot, and any other `type` changes no typed
projection (part_000 lines 57-79). -/
theorem ws_route_updates_matching_bucket (st : WsState) (d : WsData) :
    (routeWorkflowMessage st d).messages = st.messages ++ [d]
    ∧ (routeWorkflowMessage st d).workflowStatus
        = (if d.type == "workflow_update" then some d else st.workflowStatus)
    ∧ (routeWorkflowMessage st d).wsArguments
        = st.wsArguments
            ++ (if d.type == "argument_generated" then [d] else [])
    ∧ (routeWorkflowMessage st d).debateTurns
        = st.debateTurns ++ (if d.type == "debate_turn" then [d] else [])
    ∧ (routeWorkflowMessage st d).feedback
        = (if d.type == "feedback_ready" then some d else st.feedback) := by
  unfold routeWorkflowMessage
  split_ifs <;> simp_all

/-! ## Connection lifecycle and reconnection -/

/-- Transport callbacks of one socket.  In the WebSocket API an `error` on an
established connection is always followed by a `close` event, so a failure
cycle is the event sequence `open`, `error`, `close`. -/
inductive WsEvent where
  | evOpen
  | evMessage (raw : String)
  | evError
  | evClose
deriving DecidableEq

/-- Connection-tracking state of the workflow channel (part_000):
`isConnected`, whether a socket object is held, and the pending reconnection
timer with its delay (the `reconnectTimeoutRef`). -/
structure ChanAState where
  isConnected : Bool
  socketPresent : Bool
  reconnectDelay : Option Nat
deriving DecidableEq

/-- State before any callback has fired. -/
def chanAInit : ChanAState := ⟨false, false, none⟩

/-- The workflow-channel handlers (part_000 lines 49-95): `onopen` sets
`isConnected` and clears a pending reconnection timer; `onerror` only logs;
`onclose` clears `isConnected`, drops the socket and schedules a
reconnection after the fixed 3000 ms delay. -/
def stepChanA (st : ChanAState) : WsEvent → ChanAState
  | WsEvent.evOpen => { st with isConnected := true, reconnectDelay := none }
  | WsEvent.evMessage _ => st
  | WsEvent.evError => st
  | WsEvent.evClose =>
    { st with isConnected := false, socketPresent := false,
              reconnectDelay := some 3000 }

/-- The reconnection delay scheduled by one callback of the workflow channel:
only `onclose` calls `setTimeout(connect, 3000)` (part_000 lines 91-94). -/
def scheduleOfA : WsEvent → List Nat
  | WsEvent.evClose => [3000]
  | _ => []

/-- The reconnection delay scheduled by one callback of the notification
channel: only `onclose` calls `setTimeout(initWs, 5000)`, where `initWs` is
the channel's connect routine (part_001 lines 530-534); `onopen` and
`onerror` only log. -/
def scheduleOfB : WsEvent → List Nat
  | WsEvent.evClose => [5000]
  | _ => []

/-- Run of the workflow channel over a callback trace, collecting every
scheduled reconnection delay in order. -/
def runChanA : ChanAState → List WsEvent → ChanAState × List Nat
  | st, [] => (st, [])
  | st, e :: es =>
    let q := runChanA (stepChanA st e) es
    (q.1, scheduleOfA e ++ q.2)

/-- Delays scheduled by the notification channel over a callback trace (its
handlers keep no connection-tracking state). -/
def delaysChanB : List WsEvent → List Nat
  | [] => []
  | e :: es => scheduleOfB e ++ delaysChanB es

/-- `n` repetitions of the failure cycle `open`, `error`, `close`. -/
def errorCycles : Nat → List WsEvent
  | 0 => []
  | n + 1 =>
    WsEvent.evOpen :: WsEvent.evError :: WsEvent.evClose :: errorCycles n

theorem runChanA_cycles_delays (n : Nat) :
    ∀ st : ChanAState, (runChanA st (errorCycles n)).2 = List.replicate n 3000 := by
  induction n with
  | zero => intro st; rfl
  | succ n ih =>
    intro st
    simp [errorCycles, runChanA, scheduleOfA, List.replicate, ih]

theorem runChanA_cycles_state (n : Nat) :
    ∀ st : ChanAState,
      (runChanA st (errorCycles (n + 1))).1 = ⟨false, false, some 3000⟩ := by
  induction n with
  | zero => intro st; rfl
  | succ n ih =>
    intro st
    exact ih (stepChanA (stepChanA (stepChanA st WsEvent.evOpen)
      WsEvent.evError) WsEvent.evClose)

theorem delaysChanB_cycles (n : Nat) :
    delaysChanB (errorCycles n) = List.replicate n 5000 := by
  induction n with
  | zero => rfl
  | succ n ih => simp [errorCycles, delaysChanB, scheduleOfB, List.replicate, ih]

/-- C5: under `n` repeated open→error(→close) cycles — in the WebSocket API an
error on an open connection is always followed by its close event — each
cycle re-enters the disconnected state and unconditionally schedules exactly
one reconnection at the fixed per-channel delay (3000 ms on the workflow
channel, 5000 ms on the notification channel): no backoff, no jitter, and no
retry limit, for every `n`. -/
theorem reconnect_fixed_delay_indefinitely (n : Nat) :
    (runChanA chanAInit (errorCycles n)).2 = List.replicate n 3000
    ∧ delaysChanB (errorCycles n) = List.replicate n 5000
    ∧ (runChanA chanAInit (errorCycles n)).1.isConnected = false := by
  refine ⟨runChanA_cycles_delays n chanAInit, delaysChanB_cycles n, ?_⟩
  cases n with
  | zero => rfl
  | succ n => rw [runChanA_cycles_state n chanAInit]

/-- C10: whenever the workflow channel's `onopen` fires, any pending
reconnection timer is cleared (`clearTimeout(reconnectTimeoutRef.current)`,
part_000 lines 49-55) and the channel is marked connected, so a previously
scheduled reconnect cannot fire after a successful handshake. -/
theorem ws_open_clears_reconnect_timer (st : ChanAState) :
    (stepChanA st WsEvent.evOpen).reconnectDelay = none
    ∧ (stepChanA st WsEvent.evOpen).isConnected = true :=
  ⟨rfl, rfl⟩

/-! ## Fallback simulator (src/frontend/app/page.tsx, handleStartWorkflow
catch branch) and fixture data (src/frontend/lib/mockData.ts)

`Date.now()` at module load is the parameter `now` of the fixture
constructors that store a timestamp. -/

/-- Workflow mode selector of the page. -/
inductive Mode where
  | single
  | debate
deriving DecidableEq

/-- An `argument_generated` fixture element of `mockData.ts`. -/
structure MockArgument where
  type : String
  agent : String
  content : String
  thinking : String
  timestamp : Nat
deriving DecidableEq

/-- The `prosecutor` side of a debate-turn fixture element. -/
structure ProsecutorSide where
  argument : String
  thinking : String
deriving DecidableEq

/-- The `defender` side of a debate-turn fixture element. -/
structure DefenderSide where
  response : String
  thinking : String
deriving DecidableEq

/-- A `debate_turn` fixture element of `mockData.ts`. -/
structure MockTurn where
  type : String
  turn : Nat
  prosecutor : ProsecutorSide
  defender : DefenderSide
deriving DecidableEq

/-- A `feedback_ready` fixture element of `mockData.ts`. -/
structure MockFeedback where
  type : String
  recommendations : List String
  strengths : List String
  weaknesses : List String
deriving DecidableEq
/-- Fixture argument from src/frontend/lib/mockData.ts (mockPiArg1). -/
def mockPiArg1 (now : Nat) : MockArgument :=
  ⟨"argument_generated",
   "Legal Analyst",
   "After analyzing your argument, I can see you\u0027re establishing the property owner\u0027s duty of care despite contributory negligence. This is a strong foundation.\n\nYour argument correctly focuses on the property owner\u0027s independent duty to maintain safe premises. Under premises liability law, property owners have a non-delegable duty to keep their property reasonably safe for lawful visitors, regardless of the visitor\u0027s potential negligence.",
   "The user is dealing with a contributory/comparative negligence defense. I need to help them strengthen their premises liability argument while addressing the defendant\u0027s texting defense.",
   now⟩

/-- Fixture argument from src/frontend/lib/mockData.ts (mockPiArg2). -/
def mockPiArg2 (now : Nat) : MockArgument :=
  ⟨"argument_generated",
   "Legal Strategist",
   "To strengthen your argument, consider these key points:\n\n1. **Separate Duties Doctrine**: Emphasize that the property owner\u0027s duty to maintain safe conditions exists independently of any contributory negligence by the plaintiff.\n\n2. **Foreseeability**: Argue that distracted pedestrians are foreseeable, and property owners must account for this reality when maintaining their premises.\n\n3. **Comparative Negligence**: Even if the plaintiff was partially at fault, in most jurisdictions this only reduces damages proportionally, not eliminate liability entirely.\n\n4. **Notice and Knowledge**: Focus on whether the property owner knew or should have known about the hazardous condition and failed to remedy it or provide adequate warning.",
   "Providing specific legal doctrines and strategic approaches to counter the contributory negligence defense.",
   now + 1000⟩

/-- Fixture feedback from src/frontend/lib/mockData.ts (mockPiFeedback). -/
def mockPiFeedback : MockFeedback :=
  ⟨"feedback_ready",
   ["Gather evidence of how long the hazardous condition existed",
    "Document similar incidents or complaints about the same hazard",
    "Obtain expert testimony on property maintenance standards",
    "Research local precedents on comparative negligence in premises liability cases"],
   ["Correctly identifies the independent duty of property owners",
    "Understands that contributory negligence doesn\u0027t eliminate liability",
    "Focus on premises liability law is appropriate"],
   ["Need more specific case law citations",
    "Should address the degree of plaintiff\u0027s distraction",
    "Could strengthen causation argument between hazard and injury"]⟩

/-- Fixture debate turn from src/frontend/lib/mockData.ts (mockNcTurn1). -/
def mockNcTurn1 : MockTurn :=
  ⟨"debate_turn", 1,
   ⟨"Your Honor, the non-compete clause in question is a valid, negotiated agreement between sophisticated parties. The employee received valuable consideration including access to proprietary information, specialized training, and client relationships. \n\nThe clause is narrowly tailored: it\u0027s limited to 12 months, covers only direct competitors, and applies solely within the specific geographic region where the company operates. This reasonable restriction protects legitimate business interests without unduly restraining trade.\n\nThe employee cannot now claim ignorance or unfairness after benefiting from the company\u0027s investments in their development.",
    "Opening with contract validity and reasonable restrictions. Need to emphasize the exchange of value and narrow scope to counter California\u0027s strong anti-noncompete stance."⟩,
   ⟨"Your Honor, California Business and Professions Code Section 16600 is unequivocal: \"Except as provided in this chapter, every contract by which anyone is restrained from engaging in a lawful profession, trade, or business of any kind is to that extent void.\"\n\nThis statute reflects California\u0027s fundamental public policy favoring employee mobility and competition. The California Supreme Court in Edwards v. Arthur Andersen (2008) explicitly rejected the \"narrow restraint\" exception that other states recognize.\n\nNo amount of consideration or claimed business interests can overcome California\u0027s statutory prohibition. The law protects not just the employee\u0027s right to work, but also promotes innovation and economic growth through free movement of talent.",
    "Leading with the statutory prohibition and Supreme Court precedent. California law is clear and leaves little room for exceptions."⟩⟩

/-- Fixture debate turn from src/frontend/lib/mockData.ts (mockNcTurn2). -/
def mockNcTurn2 : MockTurn :=
  ⟨"debate_turn", 2,
   ⟨"Counsel misapplies Section 16600. The statute has recognized exceptions, particularly for trade secret protection and ownership interests. Our client isn\u0027t seeking to prevent all employment, merely protecting confidential information and customer relationships developed at significant expense.\n\nFurthermore, if the employment agreement contains a choice-of-law provision selecting another state\u0027s law, California courts have enforced such provisions when the employer has substantial contacts with that state. Application Group, Inc. v. Hunter Group established this principle.\n\nThe employee acknowledged these restrictions and received substantial compensation accordingly. Allowing them to immediately join a competitor would constitute unjust enrichment.",
    "Pivoting to the trade secret exception and choice-of-law arguments. These are the narrow paths that might work even in California."⟩,
   ⟨"The trade secret exception is precisely that - an exception for trade secrets, not a backdoor for general non-compete agreements. California\u0027s Uniform Trade Secrets Act provides the exclusive remedy for trade secret misappropriation. The employer cannot use a non-compete clause to achieve what trade secret law specifically addresses.\n\nRegarding choice-of-law, the California Supreme Court in Whitewater West Industries v. Alleshouse held that California\u0027s prohibition on non-compete agreements reflects a fundamental public policy that cannot be circumvented through choice-of-law provisions when California has a material interest.\n\nThe \"unjust enrichment\" argument fails because the employee earned their compensation through past services rendered. Future employment rights cannot be bargained away under California law, regardless of consideration.",
    "Distinguishing trade secret law from non-compete enforcement and addressing the choice-of-law argument with recent California Supreme Court precedent."⟩⟩

/-- Fixture debate turn from src/frontend/lib/mockData.ts (mockNcTurn3). -/
def mockNcTurn3 : MockTurn :=
  ⟨"debate_turn", 3,
   ⟨"Even accepting California\u0027s strict approach, equitable remedies remain available. The doctrine of inevitable disclosure, while limited, can prevent an employee from taking a position where they would inevitably use or disclose trade secrets.\n\nAdditionally, non-solicitation provisions targeting specific clients with whom the employee worked are more likely to survive scrutiny than broad non-compete clauses. We seek only to protect established client relationships, not to prevent competition entirely.\n\nThe employee\u0027s bad faith is relevant here - evidence shows they downloaded client lists and proprietary data before resignation, suggesting intentional misappropriation rather than innocent job mobility.",
    "Final attempt focusing on narrower theories: inevitable disclosure and non-solicitation, plus introducing bad faith conduct to strengthen the equitable argument."⟩,
   ⟨"The \"inevitable disclosure\" doctrine has been largely rejected in California. In Schlage Lock v. Whyte, the court held that this doctrine cannot create an implied non-compete agreement where express agreements are void.\n\nNon-solicitation agreements face the same scrutiny under Section 16600 when they substantially restrict business operations. The California Supreme Court in Dowell v. Biosense Webster confirmed that even client-specific restrictions are void if they restrain business competition.\n\nAs for the alleged bad faith conduct, if the employer has evidence of trade secret theft, they should pursue appropriate remedies under the Uniform Trade Secrets Act or criminal law, not attempt to enforce an illegal non-compete agreement. The validity of the contract clause stands independent of any alleged misconduct.\n\nCalifornia\u0027s policy is clear: promote innovation and competition through employee mobility. This court should void the non-compete clause as required by law.",
    "Closing by dismantling each remaining argument and returning to California\u0027s fundamental policy. The law strongly favors my position."⟩⟩

/-- Fixture feedback from src/frontend/lib/mockData.ts (mockNcFeedback). -/
def mockNcFeedback : MockFeedback :=
  ⟨"feedback_ready",
   ["Lawyer A should focus more on federal law preemption arguments if applicable",
    "Lawyer B could strengthen position with economic impact studies on non-compete agreements",
    "Both sides should address recent FTC proposed rules on non-compete agreements",
    "Consider alternative protective mechanisms like garden leave or retention bonuses"],
   ["Lawyer A: Creative arguments using choice-of-law and trade secret exceptions",
    "Lawyer B: Strong command of California statutory and case law",
    "Both: Well-structured arguments with appropriate legal citations"],
   ["Lawyer A: Fighting uphill battle against clear statutory prohibition",
    "Lawyer B: Could address more policy considerations",
    "Both: Limited discussion of practical business alternatives"]⟩

/-- Fixture argument from src/frontend/lib/mockData.ts (mockDefaultSingleArg). -/
def mockDefaultSingleArg (now : Nat) : MockArgument :=
  ⟨"argument_generated",
   "Legal Analyst",
   "I\u0027ve analyzed your legal argument. While I cannot connect to the backend system currently, here\u0027s a general framework for strengthening your position:\n\n1. Establish the legal foundation with relevant statutes and case law\n2. Address potential counterarguments preemptively  \n3. Ensure your facts support each element of your legal theory\n4. Consider procedural requirements and deadlines",
   "Providing general legal analysis framework as fallback.",
   now⟩

/-- Fixture feedback from src/frontend/lib/mockData.ts (mockDefaultSingleFeedback). -/
def mockDefaultSingleFeedback : MockFeedback :=
  ⟨"feedback_ready",
   ["Research relevant case law in your jurisdiction",
    "Strengthen factual support for key claims",
    "Consider alternative legal theories",
    "Prepare for likely counterarguments"],
   ["Clear legal theory",
    "Organized presentation"],
   ["Needs more specific case citations",
    "Could address more counterarguments"]⟩

/-- Fixture debate turn from src/frontend/lib/mockData.ts (mockDefaultDebateTurn). -/
def mockDefaultDebateTurn : MockTurn :=
  ⟨"debate_turn", 1,
   ⟨"Opening argument establishing the primary legal position...",
    "Setting up the foundation of the argument."⟩,
   ⟨"Counter-argument addressing the key legal issues...",
    "Identifying weaknesses in the opposing position."⟩⟩

/-- Fixture feedback from src/frontend/lib/mockData.ts (mockDefaultDebateFeedback). -/
def mockDefaultDebateFeedback : MockFeedback :=
  ⟨"feedback_ready",
   ["Consider additional legal theories",
    "Strengthen factual support"],
   ["Clear arguments from both sides"],
   ["Could use more specific case law"]⟩

/-- A canned response of `getMockResponse`: either an arguments-plus-feedback
set (single mode) or a turns-plus-feedback set (debate mode). -/
inductive MockResponse where
  | singleResp (args : List MockArgument) (feedback : MockFeedback)
  | debateResp (turns : List MockTurn) (feedback : MockFeedback)
deriving DecidableEq

/-- `getMockResponse(mode, userInput)` (mockData.ts lines 142-177):
case-insensitive substring matching on the input selects the
personal-injury scenario in single mode, the non-compete scenario in debate
mode, and otherwise the generic per-mode default. -/
def getMockResponse (now : Nat) (mode : Mode) (userInput : String) :
    MockResponse :=
  let isPersonalInjury :=
    jsIncludes (jsToLowerCase userInput) "personal injury"
      || jsIncludes (jsToLowerCase userInput) "texting while walking"
  let isNonCompete :=
    jsIncludes (jsToLowerCase userInput) "non-compete"
      || jsIncludes (jsToLowerCase userInput) "california"
  if mode = Mode.single && isPersonalInjury then
    MockResponse.singleResp [mockPiArg1 now, mockPiArg2 now] mockPiFeedback
  else if mode = Mode.debate && isNonCompete then
    MockResponse.debateResp [mockNcTurn1, mockNcTurn2, mockNcTurn3]
      mockNcFeedback
  else if mode = Mode.single then
    MockResponse.singleResp [mockDefaultSingleArg now] mockDefaultSingleFeedback
  else
    MockResponse.debateResp [mockDefaultDebateTurn] mockDefaultDebateFeedback

/-- An event appended by one simulator timer: `setMockArguments` append,
`setMockDebateTurns` append, or `setMockFeedback` replace. -/
inductive SimEvent where
  | argument (a : MockArgument)
  | debateTurn (t : MockTurn)
  | feedback (f : MockFeedback)
deriving DecidableEq

/-- One scheduled `setTimeout`: its timer handle (creation order), its delay
from simulation start in milliseconds, and the event it appends. -/
structure SimTimer where
  handle : Nat
  fireAt : Nat
  event : SimEvent
deriving DecidableEq

/-- The fallback branch of `handleStartWorkflow` (page.tsx lines 370-403):
in single mode each mock argument is scheduled at `1000 * (index + 1)` and
the feedback at `1000 * (length + 1)`; in debate mode each turn at
`2000 * (index + 1)` and the feedback at `2000 * (length + 1)`. -/
def startFallbackSim (now : Nat) (mode : Mode) (input : String) :
    List SimTimer :=
  match getMockResponse now mode input with
  | MockResponse.singleResp args fb =>
    (args.enum.map fun p =>
      SimTimer.mk p.1 (1000 * (p.1 + 1)) (SimEvent.argument p.2))
      ++ [SimTimer.mk args.length (1000 * (args.length + 1))
            (SimEvent.feedback fb)]
  | MockResponse.debateResp turns fb =>
    (turns.enum.map fun p =>
      SimTimer.mk p.1 (2000 * (p.1 + 1)) (SimEvent.debateTurn p.2))
      ++ [SimTimer.mk turns.length (2000 * (turns.length + 1))
            (SimEvent.feedback fb)]

/-- The timer handles the page keeps for later cancellation: the results of
the simulator's `setTimeout` calls are discarded (page.tsx lines 379-401
never store them) and the component registers no cleanup for them, so the
set of cancelable handles is empty. -/
def retainedSimHandles : List Nat := []

/-- Teardown of the fallback simulator: cancellation can only reach the
timers whose handles were retained; every other scheduled timer keeps
running. -/
def teardownSim (pending : List SimTimer) : List SimTimer :=
  pending.filter fun t => !(retainedSimHandles.contains t.handle)

/-- The events the torn-down simulator still appends: each surviving timer
fires and performs its state append. -/
def eventsAfterTeardown (pending : List SimTimer) : List SimEvent :=
  (teardownSim pending).map fun t => t.event

/-- C6: on the input `texting while walking` in single mode the simulator
deterministically selects the personal-injury scenario and schedules exactly
its two argument events at 1000 ms and 2000 ms and its feedback at 3000 ms
after simulation start. -/
theorem fallback_personal_injury_schedule (now : Nat) :
    startFallbackSim now Mode.single "texting while walking"
      = [⟨0, 1000, SimEvent.argument (mockPiArg1 now)⟩,
         ⟨1, 2000, SimEvent.argument (mockPiArg2 now)⟩,
         ⟨2, 3000, SimEvent.feedback mockPiFeedback⟩] := by
  rfl

/-- C7: evaluation of simulator teardown at the personal-injury scenario.
The page discards every `setTimeout` handle and registers no cleanup, so
tearing down before the first timer fires cancels nothing: all three timers
survive teardown and still fire their three events afterwards — the claim
that no dangling timer survives teardown fails. -/
theorem fallback_timers_survive_teardown (now : Nat) :
    (teardownSim (startFallbackSim now Mode.single "texting while walking")
      ).map (fun t => t.fireAt) = [1000, 2000, 3000]
    ∧ eventsAfterTeardown
        (startFallbackSim now Mode.single "texting while walking")
      = [SimEvent.argument (mockPiArg1 now),
         SimEvent.argument (mockPiArg2 now),
         SimEvent.feedback mockPiFeedback] := by
  exact ⟨rfl, rfl⟩
